import Mathlib

/-!
Shallow embedding of the two ETL pipelines of this repository
(`ETL_AirQuality_API` and `customer_churn_etl`), restricted to the parts the
specification's claims are about: the retrying fetcher (`extract.py`), the
row-wise transform (`transform.py`), the batched retrying loader (`load.py`)
and the validator (`validate.py`).

Modelling conventions:
* Python dictionary values that can be strings, booleans or `None` are
  modelled by the `PyVal` sum type, so that the dynamic type of a field
  (e.g. the `success` field of a fetch result) is observable.
* The outcome of each HTTP attempt is supplied by an environment function
  `outcomes : Nat -> AttemptOutcome` (attempt numbers counted from 1),
  standing for the external API; the fetch loop of `_fetch_city` is a
  structural recursion on the remaining attempt budget, and it returns the
  trace of executed backoff sleeps (in seconds) and the number of HTTP
  requests issued, alongside the result dictionary.
* Floating point `NaN` (pandas missing values) is modelled by `Option Rat`:
  `none` is NaN/absent, arithmetic propagates `none`, and every ordered
  comparison against `none` is false, exactly as IEEE comparisons with NaN
  used by `classify_risk` behave.
* Raising `KeyError` (subscripting `CITY_COORDS` with an unknown city) is
  modelled by a dedicated constructor of the fetch outcome type.
-/

namespace AirQuality

/-- Dynamic Python value, as stored in the result dictionaries of
`extract.py` (`{"city": ..., "success": "true", ...}`). -/
inductive PyVal where
  | pyStr (s : String)
  | pyBool (b : Bool)
  | pyNone
deriving DecidableEq

/-- Environment-supplied outcome of one HTTP GET attempt inside
`_fetch_city`: either the request/parse/save pipeline succeeds and the
payload is saved at `path`, or a `requests.RequestException` with message
`msg` is raised (transport failure or non-2xx via `raise_for_status`). -/
inductive AttemptOutcome where
  | success (path : String)
  | failure (msg : String)
deriving DecidableEq

/-- The dictionary returned by `_fetch_city`
(`{"city", "success", "raw_path"}` on success,
`{"city", "success", "error"}` on failure); absent keys are `none`. -/
structure FetchResult where
  city : String
  success : PyVal
  raw_path : Option String
  error : Option String
deriving DecidableEq

/-- Overall outcome of calling `_fetch_city`: a returned dictionary together
with the trace of backoff sleeps (seconds) and the number of HTTP requests
issued, or an uncaught `KeyError` (unknown city), tagged with the number of
HTTP requests issued before the exception. -/
inductive FetchOutcome where
  | ok (res : FetchResult) (sleeps : List Nat) (requests : Nat)
  | keyError (key : String) (requests : Nat)
deriving DecidableEq

/-- The module-level `CITY_COORDS` dictionary of `extract.py`. -/
def CITY_COORDS : List (String × Rat × Rat) :=
  [("Delhi", (28.7041, 77.1025)),
   ("Mumbai", (19.0760, 72.8777)),
   ("Bengaluru", (12.9716, 77.5946)),
   ("Hyderabad", (17.3850, 78.4867)),
   ("Kolkata", (22.5726, 88.3639))]

/-- The `while attempt < max_retries` loop of `_fetch_city`, recursing on the
remaining attempt budget; `attempt` is the number of attempts already made
and `last_error` the error message of the most recent failed attempt.
Returns `(result dictionary, backoff sleeps executed, requests issued)`.
On success the function returns from inside the `try`, so no sleep follows;
on failure the loop body always executes `time.sleep(2 ** (attempt - 1))`,
also after the final attempt. -/
def fetchLoop (city : String) (outcomes : Nat → AttemptOutcome) :
    Nat → Nat → Option String → FetchResult × List Nat × Nat
  | _, 0, last_error =>
    (⟨city, .pyStr "false", none, last_error⟩, [], 0)
  | attempt, remaining + 1, _ =>
    match outcomes (attempt + 1) with
    | .success path =>
      (⟨city, .pyStr "true", some path, none⟩, [], 1)
    | .failure msg =>
      let rest := fetchLoop city outcomes (attempt + 1) remaining (some msg)
      (rest.1, 2 ^ attempt :: rest.2.1, rest.2.2 + 1)

/-- Embedding of `_fetch_city`: line 89 subscripts `CITY_COORDS[city]`, so an
unknown city raises `KeyError` before any HTTP request is issued; otherwise
the retry loop runs with `attempt = 0` and `last_error = None`. -/
def fetch_city (city : String) (outcomes : Nat → AttemptOutcome)
    (max_retries : Nat) : FetchOutcome :=
  match CITY_COORDS.lookup city with
  | none => .keyError city 0
  | some _ =>
    let t := fetchLoop city outcomes 0 max_retries none
    .ok t.1 t.2.1 t.2.2

/-- Embedding of `fetch_all_cities`: iterates the city list sequentially,
calling `_fetch_city` on each; an uncaught `KeyError` propagates and aborts
the whole call (modelled by `Except.error` carrying the offending key). -/
def fetch_all_cities (outcomes : String → Nat → AttemptOutcome)
    (max_retries : Nat) : List String → Except String (List (FetchResult × List Nat × Nat))
  | [] => .ok []
  | c :: cs =>
    match fetch_city c (outcomes c) max_retries with
    | .keyError k _ => .error k
    | .ok res sl rq =>
      match fetch_all_cities outcomes max_retries cs with
      | .error k => .error k
      | .ok rest => .ok ((res, sl, rq) :: rest)

/-- A cell of a pollutant column before `pd.to_numeric(..., errors="coerce")`:
either a numeric value, or anything that coerces to NaN (a non-numeric
string or an already-missing value). -/
inductive Cell where
  | num (q : Rat)
  | nonNumeric
deriving DecidableEq

/-- Embedding of `pd.to_numeric(df[col], errors="coerce")` on one cell:
numbers stay, everything else becomes NaN (`none`). -/
def toNumeric : Cell → Option Rat
  | .num q => some q
  | .nonNumeric => none

/-- A timestamp as pandas stores it: the original string plus the hour
accessor used by `df["time"].dt.hour`. -/
structure Timestamp where
  iso : String
  hour : Nat
deriving DecidableEq

/-- One flattened measurement row as built by `process_file` (one row per
hourly timestamp per city), before numeric coercion. -/
structure MeasurementRow where
  city : String
  time : Timestamp
  pm10 : Cell
  pm2_5 : Cell
  carbon_monoxide : Cell
  nitrogen_dioxide : Cell
  sulphur_dioxide : Cell
  ozone : Cell
  uv_index : Cell
deriving DecidableEq

/-- A measurement row after the `pd.to_numeric` coercion loop of
`transform_all`: each pollutant column is a number or NaN. -/
structure CoercedRow where
  city : String
  time : Timestamp
  pm10 : Option Rat
  pm2_5 : Option Rat
  carbon_monoxide : Option Rat
  nitrogen_dioxide : Option Rat
  sulphur_dioxide : Option Rat
  ozone : Option Rat
  uv_index : Option Rat
deriving DecidableEq

/-- The per-row effect of the coercion loop
`for col in pollutant_cols: df[col] = pd.to_numeric(df[col], errors="coerce")`. -/
def coerceRow (r : MeasurementRow) : CoercedRow :=
  { city := r.city
    time := r.time
    pm10 := toNumeric r.pm10
    pm2_5 := toNumeric r.pm2_5
    carbon_monoxide := toNumeric r.carbon_monoxide
    nitrogen_dioxide := toNumeric r.nitrogen_dioxide
    sulphur_dioxide := toNumeric r.sulphur_dioxide
    ozone := toNumeric r.ozone
    uv_index := toNumeric r.uv_index }

/-- The values of the seven `pollutant_cols` of a coerced row, in the order
they are listed in `transform_all`. -/
def pollutantVals (r : CoercedRow) : List (Option Rat) :=
  [r.pm10, r.pm2_5, r.carbon_monoxide, r.nitrogen_dioxide,
   r.sulphur_dioxide, r.ozone, r.uv_index]

/-- Embedding of `df.dropna(subset=pollutant_cols, how="all")`: keep a row
iff at least one pollutant value is non-NaN. -/
def dropAllNa (rows : List CoercedRow) : List CoercedRow :=
  rows.filter fun r => (pollutantVals r).any Option.isSome

/-- Embedding of `classify_aqi` (thresholds on PM2.5). -/
def classify_aqi (pm25 : Rat) : String :=
  if pm25 ≤ 50 then "Good"
  else if pm25 ≤ 100 then "Moderate"
  else if pm25 ≤ 200 then "Unhealthy"
  else if pm25 ≤ 300 then "Very Unhealthy"
  else "Hazardous"

/-- Multiplication of a possibly-NaN value by a constant: NaN propagates
(`NaN * c = NaN` in pandas/IEEE arithmetic). -/
def nanMul (x : Option Rat) (c : Rat) : Option Rat := x.map (· * c)

/-- Addition of possibly-NaN values: NaN propagates. -/
def nanAdd : Option Rat → Option Rat → Option Rat
  | some a, some b => some (a + b)
  | _, _ => none

/-- An ordered comparison `x > c` where `x` may be NaN: every comparison
with NaN is false, as in IEEE floating point (and hence in the Python
`score > 400` tests of `classify_risk`). -/
def nanGt (x : Option Rat) (c : Rat) : Bool :=
  match x with
  | some v => decide (c < v)
  | none => false

/-- Embedding of `classify_risk`, on a possibly-NaN score. -/
def classify_risk (score : Option Rat) : String :=
  if nanGt score 400 then "High Risk"
  else if nanGt score 200 then "Moderate Risk"
  else "Low Risk"

/-- The `severity_score` column expression of `transform_all`
(`pm2_5*5 + pm10*3 + nitrogen_dioxide*4 + sulphur_dioxide*4 +
carbon_monoxide*2 + ozone*3`), with NaN propagation. -/
def severity_score (r : CoercedRow) : Option Rat :=
  nanAdd (nanMul r.pm2_5 5)
    (nanAdd (nanMul r.pm10 3)
      (nanAdd (nanMul r.nitrogen_dioxide 4)
        (nanAdd (nanMul r.sulphur_dioxide 4)
          (nanAdd (nanMul r.carbon_monoxide 2) (nanMul r.ozone 3)))))

/-- One row of the staged output `air_quality_transformed.csv`: the coerced
measurement columns plus the derived columns of `transform_all`. -/
structure StagedRow where
  city : String
  time : Timestamp
  pm10 : Option Rat
  pm2_5 : Option Rat
  carbon_monoxide : Option Rat
  nitrogen_dioxide : Option Rat
  sulphur_dioxide : Option Rat
  ozone : Option Rat
  uv_index : Option Rat
  aqi_category : Option String
  severity_score : Option Rat
  risk_flag : String
  hour : Nat
deriving DecidableEq

/-- The derived-feature block of `transform_all` on one retained row:
`aqi_category` (None when pm2_5 is NaN), `severity_score`, `risk_flag`
and the hour-of-day feature. -/
def addDerived (r : CoercedRow) : StagedRow :=
  { city := r.city
    time := r.time
    pm10 := r.pm10
    pm2_5 := r.pm2_5
    carbon_monoxide := r.carbon_monoxide
    nitrogen_dioxide := r.nitrogen_dioxide
    sulphur_dioxide := r.sulphur_dioxide
    ozone := r.ozone
    uv_index := r.uv_index
    aqi_category := r.pm2_5.map classify_aqi
    severity_score := severity_score r
    risk_flag := classify_risk (severity_score r)
    hour := r.time.hour }

/-- Embedding of the dataframe core of `transform_all`, starting from the
concatenated flattened rows of all raw files (file reading/JSON parsing and
the CSV write are I/O outside this model): coerce the pollutant columns,
drop rows whose pollutant values are all NaN, add the derived columns. -/
def transform_all (rows : List MeasurementRow) : List StagedRow :=
  (dropAllNa (rows.map coerceRow)).map addDerived

/-- Contiguous batching with fuel: `chunksAux bs fuel l` mirrors the
iterations of `for i in range(0, total, batch_size)` together with the
slicing `records[i:i + batch_size]`; `fuel = l.length` iterations always
suffice when `bs ≥ 1`. -/
def chunksAux (bs : Nat) : Nat → List α → List (List α)
  | 0, _ => []
  | _ + 1, [] => []
  | fuel + 1, a :: l => ((a :: l).take bs) :: chunksAux bs fuel ((a :: l).drop bs)

/-- The batch partition of `load_to_supabase`
(`for i in range(0, total, batch_size): batch = records[i:i + batch_size]`). -/
def chunks (bs : Nat) (l : List α) : List (List α) :=
  if bs = 0 then [] else chunksAux bs l.length l

/-- Trace of the inner `for attempt in range(1, 3) ... else` retry loop of
`load_to_supabase` for one batch: how many insert attempts were made, the
attempt number that succeeded (`none` means the `else` branch ran and the
batch was skipped), and the fixed `sleep(2)` delays executed, one after
every failed attempt. -/
structure InsertTrace where
  attemptsMade : Nat
  succeededAt : Option Nat
  sleeps : List Nat
deriving DecidableEq

/-- The retry loop for one batch, over the list of attempt numbers still to
run (`[1, 2]` in the source, i.e. `range(1, 3)`); `ok a` says whether the
insert call of attempt `a` succeeds. An exhausted list is Python's
`for ... else`: the batch is skipped. -/
def insertWithRetry (ok : Nat → Bool) : List Nat → InsertTrace
  | [] => ⟨0, none, []⟩
  | a :: rest =>
    if ok a then ⟨1, some a, []⟩
    else
      let t := insertWithRetry ok rest
      ⟨t.attemptsMade + 1, t.succeededAt, 2 :: t.sleeps⟩

/-- Embedding of the batching-and-retry core of `load_to_supabase` in
`ETL_AirQuality_API/load.py`: partition the records into contiguous batches
of `batch_size`, and run the two-attempt retry loop on every batch in
order, regardless of other batches' outcomes. `ok i a` says whether the
insert of batch index `i` (0-based) succeeds on attempt `a`. The returned
list pairs each submitted batch with its insert trace. -/
def load_to_supabase (records : List α) (batch_size : Nat)
    (ok : Nat → Nat → Bool) : List (List α × InsertTrace) :=
  (chunks batch_size records).enum.map fun p =>
    (p.2, insertWithRetry (ok p.1) [1, 2])

end AirQuality

namespace ChurnETL

/-- Embedding of the `tenure_group` derivation of
`customer_churn_etl/scripts/transform.py`:
`pd.cut(df["tenure"], bins=[0, 12, 36, 60, inf],
labels=["New", "Regular", "Loyal", "Champion"], right=True)`.
Values outside every bin (tenure ≤ 0) become NaN (`none`). -/
def tenure_group (t : Rat) : Option String :=
  if 0 < t ∧ t ≤ 12 then some "New"
  else if 12 < t ∧ t ≤ 36 then some "Regular"
  else if 36 < t ∧ t ≤ 60 then some "Loyal"
  else if 60 < t then some "Champion"
  else none

/-- One row of the Supabase `churn_data` table as the validator reads it
back (`select("*")`): the columns `validate_data` inspects; every column is
nullable. -/
structure DbRow where
  tenure : Option Rat
  monthlycharges : Option Rat
  totalcharges : Option Rat
  tenure_group : Option String
  monthly_charge_segment : Option String
  contract_type_code : Option Int
deriving DecidableEq

/-- The external relational store, holding the rows of one table. -/
structure Store where
  rows : List DbRow
deriving DecidableEq

/-- The only store operation the validator performs:
`supabase.table(...).select("*").execute()` — it returns the rows and
leaves the store unchanged. -/
def select_all (s : Store) : List DbRow × Store := (s.rows, s)

/-- The `expected_tenure_groups` set of `validate.py`. -/
def expected_tenure_groups : List String :=
  ["0-12", "13-24", "25-48", "49-72", "73+"]

/-- The `expected_charge_segments` set of `validate.py`. -/
def expected_charge_segments : List String := ["Low", "Medium", "High"]

/-- The report assembled (printed) by `validate_data`. -/
structure ValidationReport where
  original_count : Nat
  db_count : Nat
  missing_tenure : Nat
  missing_monthlycharges : Nat
  missing_totalcharges : Nat
  unique_rows : Nat
  row_count_matches : Bool
  tenure_group_valid : Bool
  charge_segment_valid : Bool
  contract_valid : Bool
deriving DecidableEq

/-- Count of missing (NaN/null) values in one column, as in
`df_db[col].isna().sum()`. -/
def countMissing (f : DbRow → Option Rat) (rows : List DbRow) : Nat :=
  (rows.filter fun r => (f r).isNone).length

/-- Embedding of `validate_data` of `customer_churn_etl/scripts/validate.py`
(its computation on data already read: the original CSV rows and the store).
The domain checks guard on the column existing: a DataFrame built from an
empty row list has no columns, so on an empty store every `*_valid` flag
keeps its initial `True`. Row-count match is the exact equality
`db_count == original_count`. The store is only read via `select_all`. -/
def validate_data (original : List α) (store : Store) :
    ValidationReport × Store :=
  let p := select_all store
  let db := p.1
  ({ original_count := original.length
     db_count := db.length
     missing_tenure := countMissing (fun r => r.tenure) db
     missing_monthlycharges := countMissing (fun r => r.monthlycharges) db
     missing_totalcharges := countMissing (fun r => r.totalcharges) db
     unique_rows := db.dedup.length
     row_count_matches := db.length == original.length
     tenure_group_valid := db.isEmpty ||
       db.all fun r => (expected_tenure_groups.map some).contains r.tenure_group
     charge_segment_valid := db.isEmpty ||
       db.all fun r => (expected_charge_segments.map some).contains r.monthly_charge_segment
     contract_valid := db.isEmpty ||
       db.all fun r => (([0, 1, 2] : List Int).map some).contains r.contract_type_code },
   p.2)

/-- Embedding of the batch loop of `load_to_supabase` in
`customer_churn_etl/scripts/load.py`: fixed `batch_size = 200`, one insert
attempt per batch, `continue` on exception — every batch is submitted
exactly once regardless of other batches' outcomes. `ok i` says whether
batch index `i` inserts successfully. -/
def load_to_supabase (records : List α) (ok : Nat → Bool) :
    List (List α × Bool) :=
  (AirQuality.chunks 200 records).enum.map fun p => (p.2, ok p.1)

end ChurnETL

namespace AirQuality

/-! Helper lemmas about the batch partition. -/

theorem chunksAux_mem_length_le {α : Type} (bs : Nat) :
    ∀ (fuel : Nat) (l : List α), ∀ b ∈ chunksAux bs fuel l, b.length ≤ bs := by
  intro fuel
  induction fuel with
  | zero => intro l b hb; simp [chunksAux] at hb
  | succ f ih =>
    intro l b hb
    cases l with
    | nil => simp [chunksAux] at hb
    | cons a l =>
      simp only [chunksAux, List.mem_cons] at hb
      rcases hb with rfl | hb
      · rw [List.length_take]
        exact Nat.min_le_left bs (a :: l).length
      · exact ih _ b hb

theorem chunksAux_flatten {α : Type} (bs : Nat) (hbs : 1 ≤ bs) :
    ∀ (fuel : Nat) (l : List α), l.length ≤ fuel →
      (chunksAux bs fuel l).flatten = l := by
  intro fuel
  induction fuel with
  | zero =>
    intro l hl
    have : l = [] := List.eq_nil_of_length_eq_zero (Nat.le_zero.mp hl)
    subst this; rfl
  | succ f ih =>
    intro l hl
    cases l with
    | nil => rfl
    | cons a l =>
      have hdrop : ((a :: l).drop bs).length ≤ f := by
        simp only [List.length_drop, List.length_cons]
        simp only [List.length_cons] at hl
        omega
      simp only [chunksAux, List.flatten_cons, ih _ hdrop, List.take_append_drop]

theorem chunks_mem_length_le {α : Type} (bs : Nat) (l : List α) :
    ∀ b ∈ chunks bs l, b.length ≤ bs := by
  intro b hb
  unfold chunks at hb
  split at hb
  · simp at hb
  · exact chunksAux_mem_length_le bs l.length l b hb

theorem chunks_flatten {α : Type} (bs : Nat) (hbs : 0 < bs) (l : List α) :
    (chunks bs l).flatten = l := by
  unfold chunks
  rw [if_neg (Nat.pos_iff_ne_zero.mp hbs)]
  exact chunksAux_flatten bs hbs l.length l (Nat.le_refl _)

theorem load_to_supabase_map_fst {α : Type} (records : List α)
    (batch_size : Nat) (ok : Nat → Nat → Bool) :
    (load_to_supabase records batch_size ok).map Prod.fst =
      chunks batch_size records := by
  unfold load_to_supabase
  rw [List.map_map]
  exact List.enum_map_snd (chunks batch_size records)

theorem insertWithRetry_two (ok : Nat → Bool) :
    1 ≤ (insertWithRetry ok [1, 2]).attemptsMade ∧
    (insertWithRetry ok [1, 2]).attemptsMade ≤ 2 ∧
    (∀ d ∈ (insertWithRetry ok [1, 2]).sleeps, d = 2) ∧
    ((insertWithRetry ok [1, 2]).succeededAt = none →
      (insertWithRetry ok [1, 2]).attemptsMade = 2) := by
  cases h1 : ok 1 <;> cases h2 : ok 2 <;>
    simp [insertWithRetry, h1, h2]

theorem churn_load_map_fst {α : Type} (records : List α) (ok : Nat → Bool) :
    (ChurnETL.load_to_supabase records ok).map Prod.fst = chunks 200 records := by
  unfold ChurnETL.load_to_supabase
  rw [List.map_map]
  exact List.enum_map_snd (chunks 200 records)

/-! Helper lemmas about the fetch retry loop. -/

theorem fetchLoop_requests_le (city : String) (o : Nat → AttemptOutcome) :
    ∀ (r a : Nat) (e : Option String),
      (fetchLoop city o a r e).2.2 ≤ r := by
  intro r
  induction r with
  | zero => intro a e; simp [fetchLoop]
  | succ n ih =>
    intro a e
    simp only [fetchLoop]
    cases o (a + 1) with
    | success path => simp
    | failure msg => simpa using ih (a + 1) (some msg)

theorem pow_range_cons (n a : Nat) :
    (List.range (n + 1)).map (fun k => 2 ^ (a + k)) =
      2 ^ a :: (List.range n).map (fun k => 2 ^ (a + 1 + k)) := by
  rw [List.range_succ_eq_map]
  simp only [List.map_cons, List.map_map, Nat.add_zero]
  refine congrArg (2 ^ a :: ·) (List.map_congr_left fun k _ => ?_)
  simp only [Function.comp_apply]
  exact congrArg (2 ^ ·) (by omega)

theorem fetchLoop_sleeps_pow (city : String) (o : Nat → AttemptOutcome) :
    ∀ (r a : Nat) (e : Option String),
      (fetchLoop city o a r e).2.1 =
        (List.range (fetchLoop city o a r e).2.1.length).map
          (fun k => 2 ^ (a + k)) := by
  intro r
  induction r with
  | zero => intro a e; simp [fetchLoop]
  | succ n ih =>
    intro a e
    simp only [fetchLoop]
    cases o (a + 1) with
    | success path => simp
    | failure msg =>
      simp only [List.length_cons]
      rw [pow_range_cons]
      exact congrArg (2 ^ a :: ·) (ih (a + 1) (some msg))

theorem fetchLoop_sleeps_le_requests (city : String) (o : Nat → AttemptOutcome) :
    ∀ (r a : Nat) (e : Option String),
      (fetchLoop city o a r e).2.1.length ≤ (fetchLoop city o a r e).2.2 := by
  intro r
  induction r with
  | zero => intro a e; simp [fetchLoop]
  | succ n ih =>
    intro a e
    simp only [fetchLoop]
    cases o (a + 1) with
    | success path => simp
    | failure msg => simpa using ih (a + 1) (some msg)

theorem fetchLoop_allFail (city : String) (msg : Nat → String) :
    ∀ (r a : Nat) (e : Option String), 1 ≤ r →
      fetchLoop city (fun k => .failure (msg k)) a r e =
        (⟨city, .pyStr "false", none, some (msg (a + r))⟩,
         (List.range r).map (fun k => 2 ^ (a + k)), r) := by
  intro r
  induction r with
  | zero => intro a e h; omega
  | succ n ih =>
    intro a e _
    cases n with
    | zero => simp [fetchLoop, List.range_succ]
    | succ m =>
      have step : fetchLoop city (fun k => AttemptOutcome.failure (msg k)) a (m + 1 + 1) e =
          ((fetchLoop city (fun k => AttemptOutcome.failure (msg k)) (a + 1) (m + 1)
              (some (msg (a + 1)))).1,
           2 ^ a :: (fetchLoop city (fun k => AttemptOutcome.failure (msg k)) (a + 1) (m + 1)
              (some (msg (a + 1)))).2.1,
           (fetchLoop city (fun k => AttemptOutcome.failure (msg k)) (a + 1) (m + 1)
              (some (msg (a + 1)))).2.2 + 1) := rfl
      rw [step, ih (a + 1) (some (msg (a + 1))) (Nat.succ_le_succ (Nat.zero_le m))]
      have harith : a + 1 + (m + 1) = a + (m + 1 + 1) := by omega
      rw [harith]
      conv_rhs => rw [pow_range_cons]

theorem fetchLoop_result_shape (city : String) (o : Nat → AttemptOutcome) :
    ∀ (r a : Nat) (e : Option String), 1 ≤ r ∨ e.isSome = true →
      (fetchLoop city o a r e).1.city = city ∧
      (((fetchLoop city o a r e).1.success = .pyStr "true" ∧
        (fetchLoop city o a r e).1.raw_path.isSome = true ∧
        (fetchLoop city o a r e).1.error = none) ∨
       ((fetchLoop city o a r e).1.success = .pyStr "false" ∧
        (fetchLoop city o a r e).1.raw_path = none ∧
        (fetchLoop city o a r e).1.error.isSome = true)) := by
  intro r
  induction r with
  | zero =>
    intro a e h
    rcases h with h | h
    · omega
    · exact ⟨rfl, Or.inr ⟨rfl, rfl, h⟩⟩
  | succ n ih =>
    intro a e _
    cases ho : o (a + 1) with
    | success path =>
      simp [fetchLoop, ho]
    | failure msg =>
      have h2 := ih (a + 1) (some msg) (Or.inr rfl)
      simp only [fetchLoop, ho]
      exact h2

end AirQuality

namespace AirQuality

/-- A concrete staged row, used for the concrete end-to-end scenarios of the
specification. -/
def sampleRow : StagedRow :=
  { city := "Delhi"
    time := ⟨"2024-01-01T00:00", 0⟩
    pm10 := some 40
    pm2_5 := some 20
    carbon_monoxide := some 1
    nitrogen_dioxide := some 2
    sulphur_dioxide := some 3
    ozone := some 4
    uv_index := some 0
    aqi_category := some "Good"
    severity_score := some 100
    risk_flag := "Low Risk"
    hour := 0 }

/-- The staged input of the end-to-end scenario: 450 rows. -/
def scenario450 : List StagedRow := List.replicate 450 sampleRow

set_option maxRecDepth 8000 in
/-- C1: for every staged table and positive batch_size the Batch Loader
partitions the rows into contiguous batches of size at most batch_size whose
concatenation in submission order is exactly the input row sequence, and the
450-row staged input with batch_size = 200 is submitted as exactly 3 batches
of sizes [200, 200, 50], in that order. -/
theorem C1_batch_partition (rows : List StagedRow) (batch_size : Nat)
    (ok : Nat → Nat → Bool) (h : 0 < batch_size) :
    (∀ b ∈ (load_to_supabase rows batch_size ok).map Prod.fst, b.length ≤ batch_size) ∧
    ((load_to_supabase rows batch_size ok).map Prod.fst).flatten = rows ∧
    (load_to_supabase scenario450 200 (fun _ _ => true)).map (fun p => p.1.length) =
      [200, 200, 50] := by
  refine ⟨?_, ?_, ?_⟩
  · rw [load_to_supabase_map_fst]
    exact chunks_mem_length_le batch_size rows
  · rw [load_to_supabase_map_fst]
    exact chunks_flatten batch_size h rows
  · decide

/-- Witness for C1 at rows = five sample rows, batch_size = 2. -/
theorem C1_batch_partition_witness :
    0 < 2 ∧
    ((∀ b ∈ (load_to_supabase (List.replicate 5 sampleRow) 2 (fun _ _ => true)).map Prod.fst,
        b.length ≤ 2) ∧
     ((load_to_supabase (List.replicate 5 sampleRow) 2 (fun _ _ => true)).map Prod.fst).flatten =
        List.replicate 5 sampleRow ∧
     (load_to_supabase scenario450 200 (fun _ _ => true)).map (fun p => p.1.length) =
        [200, 200, 50]) :=
  ⟨by decide, C1_batch_partition (List.replicate 5 sampleRow) 2 (fun _ _ => true) (by decide)⟩

end AirQuality

namespace AirQuality

/-- The attempt outcomes of the end-to-end fetch scenario: the first two
attempts fail, the third succeeds with a saved payload. -/
def scenarioOutcomes : Nat → AttemptOutcome := fun k =>
  if k ≤ 2 then .failure "timeout" else .success "delhi_raw.json"

/-- C2 counterexample: the claim says backoff sleeps occur only between
attempts. With max_retries = 1 and a failing attempt, `_fetch_city` issues
exactly 1 HTTP request yet executes 1 backoff sleep (2^0 = 1s) after that
final attempt, before returning the failure result — so the number of
sleeps is not smaller than the number of attempts, and the sleep is not
between two attempts. -/
theorem C2_counterexample :
    fetch_city "Delhi" (fun _ => .failure "boom") 1 =
      .ok ⟨"Delhi", .pyStr "false", none, some "boom"⟩ [1] 1 ∧
    ¬ (([1] : List Nat).length < 1) := by
  exact ⟨by decide, by decide⟩

/-- C2 (amended): for every entity fetch with max_retries ≥ 1 on a known
city, the Fetcher issues at most max_retries HTTP requests, the k-th backoff
sleep (counted from 1) lasts exactly 2^(k-1) seconds and follows the k-th
failed attempt (including after the final attempt when every attempt fails,
so at most one sleep per request rather than strictly between attempts);
and a fetch failing twice then succeeding on the third attempt within
max_retries = 3 returns a success result carrying the saved payload path
after a total backoff wait of exactly 1s + 2s = 3s. -/
theorem C2_amended_backoff (city : String) (outcomes : Nat → AttemptOutcome)
    (max_retries : Nat) (h : 1 ≤ max_retries)
    (hc : (CITY_COORDS.lookup city).isSome = true) :
    (∃ res sleeps requests,
      fetch_city city outcomes max_retries = .ok res sleeps requests ∧
      requests ≤ max_retries ∧
      sleeps = (List.range sleeps.length).map (fun k => 2 ^ k) ∧
      sleeps.length ≤ requests) ∧
    (fetch_city "Delhi" scenarioOutcomes 3 =
      .ok ⟨"Delhi", .pyStr "true", some "delhi_raw.json", none⟩ [1, 2] 3 ∧
     ([1, 2] : List Nat).sum = 3) := by
  constructor
  · obtain ⟨c, hc'⟩ := Option.isSome_iff_exists.mp hc
    refine ⟨(fetchLoop city outcomes 0 max_retries none).1,
            (fetchLoop city outcomes 0 max_retries none).2.1,
            (fetchLoop city outcomes 0 max_retries none).2.2,
            by simp [fetch_city, hc'], ?_, ?_, ?_⟩
    · exact fetchLoop_requests_le city outcomes max_retries 0 none
    · have hp := fetchLoop_sleeps_pow city outcomes max_retries 0 none
      simpa using hp
    · exact fetchLoop_sleeps_le_requests city outcomes max_retries 0 none
  · exact ⟨by decide, by decide⟩

/-- Witness for C2 (amended) at city = Mumbai, all attempts failing,
max_retries = 3. -/
theorem C2_amended_backoff_witness :
    1 ≤ 3 ∧ (CITY_COORDS.lookup "Mumbai").isSome = true ∧
    ((∃ res sleeps requests,
        fetch_city "Mumbai" (fun _ => .failure "err") 3 = .ok res sleeps requests ∧
        requests ≤ 3 ∧
        sleeps = (List.range sleeps.length).map (fun k => 2 ^ k) ∧
        sleeps.length ≤ requests) ∧
     (fetch_city "Delhi" scenarioOutcomes 3 =
        .ok ⟨"Delhi", .pyStr "true", some "delhi_raw.json", none⟩ [1, 2] 3 ∧
      ([1, 2] : List Nat).sum = 3)) :=
  ⟨by decide, by decide,
   C2_amended_backoff "Mumbai" (fun _ => .failure "err") 3 (by decide) (by decide)⟩

/-- C3: for every staged table, the air-quality loader submits every
contiguous batch in order regardless of other batches' outcomes, makes at
least 1 and at most 2 insert attempts per batch with a fixed delay of 2
seconds after each failed attempt (not exponential), and skips a batch only
after making both attempts; the customer-churn loader likewise submits
every batch exactly once, continuing past failures. -/
theorem C3_batch_retry_isolation (rows : List StagedRow)
    (batch_size : Nat) (ok : Nat → Nat → Bool) (cok : Nat → Bool) :
    ((load_to_supabase rows batch_size ok).map Prod.fst = chunks batch_size rows) ∧
    (∀ e ∈ load_to_supabase rows batch_size ok,
      1 ≤ e.2.attemptsMade ∧ e.2.attemptsMade ≤ 2 ∧
      (∀ d ∈ e.2.sleeps, d = 2) ∧
      (e.2.succeededAt = none → e.2.attemptsMade = 2)) ∧
    ((ChurnETL.load_to_supabase rows cok).map Prod.fst = chunks 200 rows) := by
  refine ⟨load_to_supabase_map_fst rows batch_size ok, ?_, churn_load_map_fst rows cok⟩
  intro e he
  unfold load_to_supabase at he
  obtain ⟨p, _, rfl⟩ := List.mem_map.mp he
  exact insertWithRetry_two (ok p.1)

end AirQuality

namespace AirQuality

theorem nanAdd_none_left (y : Option Rat) : nanAdd none y = none := by
  cases y <;> rfl

theorem nanAdd_none_right (x : Option Rat) : nanAdd x none = none := by
  cases x <;> rfl

/-- C4: a measurement row is retained by the Transformer iff at least one of
the seven pollutant fields is non-absent after numeric coercion; and the
drop step is exactly the retention step of `transform_all`. -/
theorem C4_retention_iff (rows : List MeasurementRow) (r : CoercedRow) :
    (r ∈ dropAllNa (rows.map coerceRow) ↔
      r ∈ rows.map coerceRow ∧
        (r.pm10.isSome = true ∨ r.pm2_5.isSome = true ∨
         r.carbon_monoxide.isSome = true ∨ r.nitrogen_dioxide.isSome = true ∨
         r.sulphur_dioxide.isSome = true ∨ r.ozone.isSome = true ∨
         r.uv_index.isSome = true)) ∧
    transform_all rows = (dropAllNa (rows.map coerceRow)).map addDerived := by
  refine ⟨?_, rfl⟩
  unfold dropAllNa
  rw [List.mem_filter]
  refine and_congr_right fun _ => ?_
  simp [pollutantVals]

/-- C5: for a city in the fixed coordinate table, when every attempt fails
with a RequestException, `_fetch_city` returns (never raises) a failure
result carrying the last attempt's error message, after max_retries
requests and max_retries backoff sleeps. -/
theorem C5_exhaustion_failure_result (city : String) (msg : Nat → String)
    (max_retries : Nat) (h : 1 ≤ max_retries)
    (hc : (CITY_COORDS.lookup city).isSome = true) :
    fetch_city city (fun k => .failure (msg k)) max_retries =
      .ok ⟨city, .pyStr "false", none, some (msg max_retries)⟩
        ((List.range max_retries).map (fun k => 2 ^ k)) max_retries := by
  obtain ⟨c, hc'⟩ := Option.isSome_iff_exists.mp hc
  have hf := fetchLoop_allFail city msg max_retries 0 none h
  simp only [Nat.zero_add] at hf
  simp [fetch_city, hc', hf]

/-- Witness for C5 at city = Kolkata, max_retries = 2, constant error. -/
theorem C5_exhaustion_failure_result_witness :
    1 ≤ 2 ∧ (CITY_COORDS.lookup "Kolkata").isSome = true ∧
    fetch_city "Kolkata" (fun _ => .failure "err") 2 =
      .ok ⟨"Kolkata", .pyStr "false", none, some "err"⟩
        ((List.range 2).map (fun k => 2 ^ k)) 2 :=
  ⟨by decide, by decide,
   C5_exhaustion_failure_result "Kolkata" (fun _ => "err") 2 (by decide) (by decide)⟩

/-- C9: every staged row produced by `transform_all` in which at least one
of the six severity-score inputs is absent gets an absent (NaN)
severity_score and risk_flag "Low Risk", because both threshold comparisons
are false on NaN. -/
theorem C9_partial_row_low_risk (rows : List MeasurementRow) (s : StagedRow)
    (hs : s ∈ transform_all rows)
    (habs : s.pm2_5 = none ∨ s.pm10 = none ∨ s.nitrogen_dioxide = none ∨
            s.sulphur_dioxide = none ∨ s.carbon_monoxide = none ∨ s.ozone = none) :
    s.severity_score = none ∧ s.risk_flag = "Low Risk" := by
  unfold transform_all at hs
  obtain ⟨r, _, rfl⟩ := List.mem_map.mp hs
  have hnone : severity_score r = none := by
    rcases habs with h | h | h | h | h | h <;>
    · simp only [addDerived] at h
      simp [severity_score, nanMul, h, nanAdd_none_left, nanAdd_none_right]
  refine ⟨hnone, ?_⟩
  simp only [addDerived, hnone]
  rfl

end AirQuality

namespace AirQuality

/-- A raw measurement row whose pm2_5 cell is non-numeric but whose other
pollutant cells are numeric. -/
def partialRow : MeasurementRow :=
  { city := "Delhi"
    time := ⟨"2024-01-01T05:00", 5⟩
    pm10 := .num 42
    pm2_5 := .nonNumeric
    carbon_monoxide := .num 1
    nitrogen_dioxide := .num 2
    sulphur_dioxide := .num 3
    ozone := .num 4
    uv_index := .num 0 }

/-- Witness for C9: the staged row obtained from `partialRow` is retained
(pm10 is present), its severity_score is NaN and its risk_flag is
"Low Risk". -/
theorem C9_partial_row_low_risk_witness :
    addDerived (coerceRow partialRow) ∈ transform_all [partialRow] ∧
    ((addDerived (coerceRow partialRow)).pm2_5 = none ∨
     (addDerived (coerceRow partialRow)).pm10 = none ∨
     (addDerived (coerceRow partialRow)).nitrogen_dioxide = none ∨
     (addDerived (coerceRow partialRow)).sulphur_dioxide = none ∨
     (addDerived (coerceRow partialRow)).carbon_monoxide = none ∨
     (addDerived (coerceRow partialRow)).ozone = none) ∧
    ((addDerived (coerceRow partialRow)).severity_score = none ∧
     (addDerived (coerceRow partialRow)).risk_flag = "Low Risk") :=
  ⟨by decide, by decide,
   C9_partial_row_low_risk [partialRow] (addDerived (coerceRow partialRow))
     (by decide) (by decide)⟩

/-- C7 counterexample: the claim says the Fetch Result's success field is a
boolean. On a successful fetch the code returns the Python string "true"
(and on failure the string "false"), which is a different Python value from
both booleans — the module's own CLI code compares it to the string "true". -/
theorem C7_counterexample :
    fetch_city "Delhi" (fun _ => .success "delhi_raw.json") 3 =
      .ok ⟨"Delhi", .pyStr "true", some "delhi_raw.json", none⟩ [] 1 ∧
    PyVal.pyStr "true" ≠ PyVal.pyBool true ∧
    PyVal.pyStr "false" ≠ PyVal.pyBool false := by
  exact ⟨by decide, by decide, by decide⟩

/-- C7 (amended): for every fetch attempt sequence on a known city with
max_retries ≥ 1, the returned Fetch Result carries the entity identifier
and a success field holding the string "true" (with the saved payload path
and no error) on success, or the string "false" (with no path and the error
message) on failure. -/
theorem C7_amended_result_shape (city : String) (outcomes : Nat → AttemptOutcome)
    (max_retries : Nat) (h : 1 ≤ max_retries)
    (hc : (CITY_COORDS.lookup city).isSome = true) :
    ∃ res sleeps requests,
      fetch_city city outcomes max_retries = .ok res sleeps requests ∧
      res.city = city ∧
      ((res.success = .pyStr "true" ∧ res.raw_path.isSome = true ∧ res.error = none) ∨
       (res.success = .pyStr "false" ∧ res.raw_path = none ∧ res.error.isSome = true)) := by
  obtain ⟨c, hc'⟩ := Option.isSome_iff_exists.mp hc
  refine ⟨(fetchLoop city outcomes 0 max_retries none).1,
          (fetchLoop city outcomes 0 max_retries none).2.1,
          (fetchLoop city outcomes 0 max_retries none).2.2,
          by simp [fetch_city, hc'], ?_⟩
  exact fetchLoop_result_shape city outcomes max_retries 0 none (Or.inl h)

/-- Witness for C7 (amended) at city = Hyderabad, immediate success. -/
theorem C7_amended_result_shape_witness :
    1 ≤ 3 ∧ (CITY_COORDS.lookup "Hyderabad").isSome = true ∧
    ∃ res sleeps requests,
      fetch_city "Hyderabad" (fun _ => .success "p.json") 3 = .ok res sleeps requests ∧
      res.city = "Hyderabad" ∧
      ((res.success = .pyStr "true" ∧ res.raw_path.isSome = true ∧ res.error = none) ∨
       (res.success = .pyStr "false" ∧ res.raw_path = none ∧ res.error.isSome = true)) :=
  ⟨by decide, by decide,
   C7_amended_result_shape "Hyderabad" (fun _ => .success "p.json") 3
     (by decide) (by decide)⟩

/-- C10: for every city outside the fixed CITY_COORDS table, `_fetch_city`
raises KeyError before issuing any HTTP request (instead of returning a
failure result), and `fetch_all_cities` on any list containing such a city
propagates a KeyError for some unknown city instead of returning a result
list. -/
theorem C10_unknown_city_keyerror (city : String)
    (outcomes : String → Nat → AttemptOutcome) (max_retries : Nat)
    (hc : CITY_COORDS.lookup city = none) :
    (∀ o : Nat → AttemptOutcome, fetch_city city o max_retries = .keyError city 0) ∧
    ∀ cities : List String, city ∈ cities →
      ∃ k, CITY_COORDS.lookup k = none ∧
        fetch_all_cities outcomes max_retries cities = .error k := by
  constructor
  · intro o
    simp [fetch_city, hc]
  · intro cities hmem
    induction cities with
    | nil => cases hmem
    | cons c cs ih =>
      by_cases h1 : CITY_COORDS.lookup c = none
      · exact ⟨c, h1, by simp [fetch_all_cities, fetch_city, h1]⟩
      · have hc2 : city ∈ cs := by
          rcases List.mem_cons.mp hmem with rfl | hmem2
          · exact absurd hc h1
          · exact hmem2
        obtain ⟨k, hk, hrun⟩ := ih hc2
        refine ⟨k, hk, ?_⟩
        obtain ⟨v, hv⟩ := Option.ne_none_iff_exists'.mp h1
        simp [fetch_all_cities, fetch_city, hv, hrun]

/-- Witness for C10 at the unknown city "Paris". -/
theorem C10_unknown_city_keyerror_witness :
    CITY_COORDS.lookup "Paris" = none ∧
    fetch_city "Paris" (fun _ => .failure "x") 3 = .keyError "Paris" 0 ∧
    ∃ k, CITY_COORDS.lookup k = none ∧
      fetch_all_cities (fun _ _ => .failure "x") 3 ["Delhi", "Paris"] = .error k :=
  ⟨by decide,
   (C10_unknown_city_keyerror "Paris" (fun _ _ => .failure "x") 3 (by decide)).1
     (fun _ => .failure "x"),
   (C10_unknown_city_keyerror "Paris" (fun _ _ => .failure "x") 3 (by decide)).2
     ["Delhi", "Paris"] (by decide)⟩

end AirQuality

namespace ChurnETL

/-- C6: every tenure_group label the churn transformer can produce is
outside the validator's expected tenure-group domain, so any store state
containing at least one transformer-produced non-null tenure_group makes
the validator's tenure_group domain check report invalid. -/
theorem C6_tenure_label_mismatch {α : Type} (t : Rat) (lbl : String)
    (orig : List α) (store : Store) (r : DbRow)
    (ht : tenure_group t = some lbl) (hr : r ∈ store.rows)
    (hl : r.tenure_group = some lbl) :
    lbl ∉ expected_tenure_groups ∧
    (validate_data orig store).1.tenure_group_valid = false := by
  have hlbl : lbl = "New" ∨ lbl = "Regular" ∨ lbl = "Loyal" ∨ lbl = "Champion" := by
    unfold tenure_group at ht
    split_ifs at ht <;> simp_all
  have hnot : lbl ∉ expected_tenure_groups := by
    rcases hlbl with rfl | rfl | rfl | rfl <;> decide
  refine ⟨hnot, ?_⟩
  have hne : store.rows.isEmpty = false := by
    cases hrows : store.rows with
    | nil => rw [hrows] at hr; cases hr
    | cons a l => rfl
  have hall : (store.rows.all fun row =>
      (expected_tenure_groups.map some).contains row.tenure_group) = false := by
    apply Bool.eq_false_iff.mpr
    intro hcontra
    have hmem := List.all_eq_true.mp hcontra r hr
    rw [hl] at hmem
    rcases hlbl with rfl | rfl | rfl | rfl <;> exact absurd hmem (by decide)
  show (store.rows.isEmpty ||
      store.rows.all fun row =>
        (expected_tenure_groups.map some).contains row.tenure_group) = false
  rw [hne, hall]
  rfl

/-- Witness for C6: tenure 5 produces the label "New", and a one-row store
holding it makes the check report invalid. -/
theorem C6_tenure_label_mismatch_witness :
    tenure_group 5 = some "New" ∧
    (⟨some 5, some 50, some 250, some "New", some "Low", some 0⟩ : DbRow) ∈
      (⟨[⟨some 5, some 50, some 250, some "New", some "Low", some 0⟩]⟩ : Store).rows ∧
    (⟨some 5, some 50, some 250, some "New", some "Low", some 0⟩ : DbRow).tenure_group =
      some "New" ∧
    ("New" ∉ expected_tenure_groups ∧
     (validate_data ([] : List Nat)
        ⟨[⟨some 5, some 50, some 250, some "New", some "Low", some 0⟩]⟩).1.tenure_group_valid =
       false) :=
  ⟨by decide, by decide, by decide,
   C6_tenure_label_mismatch 5 "New" ([] : List Nat)
     ⟨[⟨some 5, some 50, some 250, some "New", some "Low", some 0⟩]⟩
     ⟨some 5, some 50, some 250, some "New", some "Low", some 0⟩
     (by decide) (by decide) (by decide)⟩

/-- C8: the validator reports row counts as matching iff the count read
from the store equals the original source's row count, by exact equality;
the counts in the report are the actual lengths at check time, and the
store is returned unchanged (no writes). -/
theorem C8_validator_row_count {α : Type} (original : List α) (store : Store) :
    (validate_data original store).2 = store ∧
    ((validate_data original store).1.row_count_matches = true ↔
      store.rows.length = original.length) ∧
    (validate_data original store).1.db_count = store.rows.length ∧
    (validate_data original store).1.original_count = original.length := by
  refine ⟨rfl, ?_, rfl, rfl⟩
  simp [validate_data, select_all]

end ChurnETL
